import Mathlib

/-!
Shallow embedding of the podcast application (astro-podcasts):
the Reflect mutators module, the player's mutation call sites, the
audio-source selection effect, and the podcast-index API wrappers.

The Reflect key-value store is modelled as a total map from string keys to
optional stored values.  JavaScript numbers carrying playback progress and
volumes are modelled as rationals; millisecond timestamps produced by
`Date.now()` are modelled by an explicit `now : Int` argument threaded to
every mutator (mutators that never call `Date.now()` ignore it).
-/

namespace Podcasts

/-- An API feed record (`Feed` in `@/data`): the fields the mutators carry
through unchanged. -/
structure Feed where
  id : String
  title : String
  author : String
  image : String
  description : String
  url : String
deriving DecidableEq

/-- The `_meta` block that `addFeed` attaches to a stored feed. -/
structure FeedMeta where
  lastUpdatedAt : Int
  fromSearch : Bool
  lastSubscribedAt : Int
  subscribed : Bool
deriving DecidableEq

/-- A feed as stored under `feed/<id>`: the raw feed fields plus `_meta`. -/
structure StoredFeed where
  id : String
  title : String
  author : String
  image : String
  description : String
  url : String
  meta : FeedMeta
deriving DecidableEq

/-- An episode as returned by the podcast API (`ApiEpisode` in `@/data`):
`datePublished` is a numeric date and `explicit` a numeric flag, exactly the
two fields `addEpisodesForFeed` converts. -/
structure ApiEpisode where
  id : String
  feedId : String
  title : String
  enclosureUrl : String
  datePublished : Int
  explicit : Int
  duration : Int
deriving DecidableEq

/-- An episode as stored under `episode/<feedId>/<id>` (`StoredEpisode` in
`@/data`): `datePublished` an ISO string, `explicit` a boolean, plus playback
`progress`. -/
structure StoredEpisode where
  id : String
  feedId : String
  title : String
  enclosureUrl : String
  datePublished : String
  explicit : Bool
  duration : Int
  progress : ℚ
deriving DecidableEq

/-- A value held by the Reflect store: a stored feed, a stored episode, or a
bare number (the `/volume` entry read at player start-up). -/
inductive StoreValue where
  | feed (f : StoredFeed)
  | ep (e : StoredEpisode)
  | num (q : ℚ)
deriving DecidableEq

/-- The Reflect client store visible through a `WriteTransaction`. -/
def Store : Type := String → Option StoreValue

/-- Key of the record for feed `feedId` (`feed/${feed.id}` in `state.ts`). -/
def feedKey (feedId : String) : String := "feed/" ++ feedId

/-- Key of the record for episode `id` of feed `feedId`
(the template literal `episode/${feedId}/${id}`). -/
def episodeKey (feedId : String) (id : String) : String :=
  "episode/" ++ feedId ++ "/" ++ id

/-- JavaScript string interpolation of a possibly-undefined value: an absent
(`undefined`) value interpolates as the literal text `undefined`. -/
def interpOpt : Option String → String
  | some s => s
  | none => "undefined"

/-- `tx.set` on the store: point update of one key. -/
def storeSet (s : Store) (k : String) (v : StoreValue) : Store :=
  fun k2 => if k2 = k then some v else s k2

/-- Modelled from the spec: `setFeed` lives in `src/reflect/state.ts`, which
is absent from the sources; per the glossary's feed record description it
writes the given stored feed at key `feed/<id>`. -/
def setFeed (s : Store) (feed : StoredFeed) : Store :=
  storeSet s (feedKey feed.id) (.feed feed)

/-- Modelled from the spec: `updateFeed` lives in the absent
`src/reflect/state.ts`; it stores the given (complete) feed record over the
existing record at key `feed/<id>`. -/
def updateFeed (s : Store) (feed : StoredFeed) : Store :=
  storeSet s (feedKey feed.id) (.feed feed)

/-- Modelled from the spec: `mustGetFeed` lives in the absent
`src/reflect/state.ts`; it reads key `feed/<id>` and fails when no feed
record is there. -/
def mustGetFeed (s : Store) (feedId : String) : Option StoredFeed :=
  match s (feedKey feedId) with
  | some (.feed f) => some f
  | _ => none

/-- `addFeed` (mutators.ts): attach a fresh `_meta` block — `lastUpdatedAt`
and `lastSubscribedAt` from `Date.now()`, `fromSearch` from the argument
(default `false`), `subscribed: false` — and store the feed. -/
def addFeed (now : Int) (s : Store) (rawFeed : Feed)
    (fromSearch : Bool := false) : Store :=
  setFeed s
    { id := rawFeed.id, title := rawFeed.title, author := rawFeed.author
      image := rawFeed.image, description := rawFeed.description
      url := rawFeed.url
      meta :=
        { lastUpdatedAt := now, fromSearch := fromSearch
          lastSubscribedAt := now, subscribed := false } }

/-- `addFeeds` (mutators.ts): `addFeed` for each feed of the list, with a
shared `fromSearch` flag (default `false`). -/
def addFeeds (now : Int) (s : Store) (feeds : List Feed)
    (fromSearch : Bool := false) : Store :=
  feeds.foldl (fun acc feed => addFeed now acc feed fromSearch) s

/-- The stored episode `addEpisodesForFeed` builds from an API episode:
`datePublished` converted to an ISO-8601 string (`toISO` models
`new Date(d).toISOString()`), `explicit` compared against `1`, `progress`
initialised to `0`, all other fields spread through unchanged. -/
def mkStoredEpisode (toISO : Int → String) (e : ApiEpisode) : StoredEpisode :=
  { id := e.id, feedId := e.feedId, title := e.title
    enclosureUrl := e.enclosureUrl
    datePublished := toISO e.datePublished
    explicit := e.explicit = 1
    duration := e.duration
    progress := 0 }

/-- `addEpisodesForFeed` (mutators.ts): convert every API episode and store
it at `episode/${episode.feedId}/${episode.id}`. -/
def addEpisodesForFeed (toISO : Int → String) (_now : Int) (s : Store)
    (rawEpisodes : List ApiEpisode) : Store :=
  rawEpisodes.foldl
    (fun acc e =>
      storeSet acc (episodeKey e.feedId e.id) (.ep (mkStoredEpisode toISO e)))
    s

/-- The argument object of `updateProgressForEpisode`.  `feedId` is an
`Option` because the player's call sites omit the property, so the mutator
destructures the JavaScript value `undefined` there. -/
structure UpdateProgressArgs where
  id : String
  feedId : Option String
  progress : ℚ
deriving DecidableEq

/-- `updateProgressForEpisode` (mutators.ts): read
`episode/${feedId}/${id}`; when an episode record is there, write it back
with only `progress` replaced; otherwise do nothing.  (The source casts the
read value to `StoredEpisode`; episode keys only ever hold episode records,
and a non-episode value is left in place here.) -/
def updateProgressForEpisode (_now : Int) (s : Store)
    (a : UpdateProgressArgs) : Store :=
  match s (episodeKey (interpOpt a.feedId) a.id) with
  | some (.ep e) =>
      storeSet s (episodeKey (interpOpt a.feedId) a.id)
        (.ep { e with progress := a.progress })
  | _ => s

/-- `subscribeToFeed` (mutators.ts): `mustGetFeed`, then store the feed with
`_meta.subscribed := true` and `_meta.lastSubscribedAt := Date.now()`;
`none` models the failure of `mustGetFeed` on an absent feed. -/
def subscribeToFeed (now : Int) (s : Store) (feedId : String) :
    Option Store :=
  match mustGetFeed s feedId with
  | some storedFeed =>
      some (updateFeed s
        { storedFeed with
            meta :=
              { storedFeed.meta with
                  subscribed := true, lastSubscribedAt := now } })
  | none => none

/-- `unsubscribeFromFeed` (mutators.ts): `mustGetFeed`, then store the feed
with only `_meta.subscribed` flipped to `false`. -/
def unsubscribeFromFeed (_now : Int) (s : Store) (feedId : String) :
    Option Store :=
  match mustGetFeed s feedId with
  | some storedFeed =>
      some (updateFeed s
        { storedFeed with
            meta := { storedFeed.meta with subscribed := false } })
  | none => none

/-- The keys of the `mutators` record registered with Reflect
(mutators.ts lines 23–30). -/
def mutatorNames : List String :=
  ["addFeed", "addFeeds", "subscribeToFeed", "unsubscribeFromFeed",
   "addEpisodesForFeed", "updateProgressForEpisode"]

/-- The mutation names the UI invokes through `r.mutate.<name>`:
`updateProgressForEpisode` and `setAudioVolume` in `Player.tsx`, and
`addFeed`, `updateFeed`, `addEpisodesForFeed`, `subscribeToFeed`,
`unsubscribeFromFeed` in `routes/Podcast.tsx`. -/
def uiInvokedMutationNames : List String :=
  ["updateProgressForEpisode", "setAudioVolume", "addFeed", "updateFeed",
   "addEpisodesForFeed", "subscribeToFeed", "unsubscribeFromFeed"]

/-- The player's progress-persisting invocation
(`Player.tsx` `handleTimeUpdate` / `handleEnded`): it passes only `id` and
`progress` (plus an ignored `played` flag), so the mutator sees
`feedId = undefined`. -/
def playerUpdateProgress (now : Int) (s : Store) (id : String)
    (progress : ℚ) : Store :=
  updateProgressForEpisode now s
    { id := id, feedId := none, progress := progress }

/-! ### Player audio-source selection (`Player.tsx`, `setupAudioSource`) -/

/-- An opaque binary blob held by a cached response. -/
structure Blob where
  data : String
deriving DecidableEq

/-- A response held by the `podcast-episode-cache/v1` cache. -/
structure CachedResponse where
  blob : Blob
deriving DecidableEq

/-- `setupAudioSource` (`Player.tsx` lines 75–99): return the audio `src`
the effect sets, or `none` when it returns early because there is no current
episode.  `createObjectURL` models `URL.createObjectURL`; `cacheMatch`
models `cache.match` on the opened `podcast-episode-cache/v1` cache.  The
source starts from the episode's `enclosureUrl` and swaps in an object URL
of the cached response's blob when `cache.match('/episode/' + id)` hits. -/
def setupAudioSource (createObjectURL : Blob → String)
    (cacheMatch : String → Option CachedResponse)
    (currentEpisode : Option StoredEpisode) : Option String :=
  match currentEpisode with
  | none => none
  | some ep =>
      let url := ep.enclosureUrl
      match cacheMatch ("/episode/" ++ ep.id) with
      | some response => some (createObjectURL response.blob)
      | none => some url

/-! ### Podcast-index API wrappers (`services/podcast-api.ts`) -/

/-- The feed shape the API module declares for search results. -/
structure ApiFeedResult where
  podcastGuid : String
  title : String
  description : String
  url : String
  image : String
deriving DecidableEq

/-- The JSON body of one podcast-index response: a `status` string, a
`description`, and a `feeds` array. -/
structure ApiResponse where
  status : String
  description : String
  feeds : List ApiFeedResult
deriving DecidableEq

/-- One attempt of a wrapped API call: throw the response's `description`
unless `response.status` is the string `"true"`, else return
`response.feeds`. -/
def attemptOnce (response : ApiResponse) : Except String (List ApiFeedResult) :=
  if response.status = "true" then .ok response.feeds
  else .error response.description

/-- The `pRetry` loop: run attempt `i`; on failure with retries left, retry
with attempt `i + 1`; with none left, surface the last error. -/
def pRetryGo (responses : Nat → ApiResponse) :
    (retriesLeft : Nat) → (i : Nat) → Except String (List ApiFeedResult)
  | 0, i => attemptOnce (responses i)
  | r + 1, i =>
      match attemptOnce (responses i) with
      | .ok feeds => .ok feeds
      | .error _ => pRetryGo responses r (i + 1)

/-- `retryable` (podcast-api): wrap a call in `pRetry` with `retries: 3`.
`responses i` abstracts the JSON body the `i`-th fetch attempt yields. -/
def retryable (responses : Nat → ApiResponse) :
    Except String (List ApiFeedResult) :=
  pRetryGo responses 3 0

/-- `searchByTerm` (podcast-api): a retryable call to `/search/byterm` with
the query in the `q` parameter; the query shapes the URL only, so the result
is determined by the attempt responses. -/
def searchByTerm (_query : String) (responses : Nat → ApiResponse) :
    Except String (List ApiFeedResult) :=
  retryable responses

/-- `trending` (podcast-api): a retryable call to `/podcasts/trending`. -/
def trending (responses : Nat → ApiResponse) :
    Except String (List ApiFeedResult) :=
  retryable responses

/-! ### Concrete sample values used by witnesses -/

/-- The store with no records. -/
def emptyStore : Store := fun _ => none

/-- A concrete feed. -/
def sampleFeed : Feed :=
  { id := "f1", title := "Feed One", author := "Au", image := "img"
    description := "d", url := "https://feed.one" }

/-- A concrete stored feed (subscribed). -/
def sampleStoredFeed : StoredFeed :=
  { id := "f1", title := "Feed One", author := "Au", image := "img"
    description := "d", url := "https://feed.one"
    meta :=
      { lastUpdatedAt := 5, fromSearch := false, lastSubscribedAt := 7
        subscribed := true } }

/-- A concrete stored episode of feed `f1` with progress `0`. -/
def sampleEpisode : StoredEpisode :=
  { id := "e1", feedId := "f1", title := "Ep One"
    enclosureUrl := "https://feed.one/e1.mp3"
    datePublished := "2024-01-01T00:00:00.000Z", explicit := false
    duration := 60, progress := 0 }

/-- A concrete store holding `sampleEpisode` at `episode/f1/e1` and
`sampleStoredFeed` at `feed/f1`. -/
def sampleStore : Store := fun k =>
  if k = "episode/f1/e1" then some (.ep sampleEpisode)
  else if k = "feed/f1" then some (.feed sampleStoredFeed)
  else none

/-- A concrete API episode of feed `f1`. -/
def sampleApiEpisode : ApiEpisode :=
  { id := "e2", feedId := "f1", title := "Ep Two"
    enclosureUrl := "https://feed.one/e2.mp3", datePublished := 1700000000
    explicit := 1, duration := 75 }

/-- A concrete stand-in for the `Date.toISOString` conversion, used only to
instantiate witnesses. -/
def sampleISO (n : Int) : String := toString n

/-- The `_meta.subscribed` flag of the feed stored under `feed/<fid>`. -/
def feedSubscribed (s : Store) (fid : String) : Option Bool :=
  (mustGetFeed s fid).map fun f => f.meta.subscribed

/-- A concrete cached blob. -/
def sampleBlob : Blob := { data := "audio-bytes" }

/-- A concrete cached response wrapping `sampleBlob`. -/
def sampleCachedResponse : CachedResponse := { blob := sampleBlob }

/-- A concrete episode cache holding a response for `/episode/e1` only. -/
def sampleCacheMatch (k : String) : Option CachedResponse :=
  if k = "/episode/e1" then some sampleCachedResponse else none

/-- A concrete model of `URL.createObjectURL`, used only in witnesses. -/
def sampleObjectURL (b : Blob) : String := "blob:" ++ b.data

/-- A response stream every attempt of which fails. -/
def failingResponses (_i : Nat) : ApiResponse :=
  { status := "false", description := "search failed", feeds := [] }

/-! ### Helper lemmas on the store -/

lemma storeSet_self (s : Store) (k : String) (v : StoreValue) :
    storeSet s k v k = some v := by
  simp [storeSet]

lemma storeSet_other (s : Store) (k : String) (v : StoreValue) (k2 : String)
    (h : k2 ≠ k) : storeSet s k v k2 = s k2 := by
  simp [storeSet, h]

lemma updateProgressForEpisode_of_ep (now : Int) (s : Store)
    (a : UpdateProgressArgs) (e : StoredEpisode)
    (h : s (episodeKey (interpOpt a.feedId) a.id) = some (.ep e)) :
    updateProgressForEpisode now s a =
      storeSet s (episodeKey (interpOpt a.feedId) a.id)
        (.ep { e with progress := a.progress }) := by
  unfold updateProgressForEpisode
  rw [h]

lemma updateProgressForEpisode_of_none (now : Int) (s : Store)
    (a : UpdateProgressArgs)
    (h : s (episodeKey (interpOpt a.feedId) a.id) = none) :
    updateProgressForEpisode now s a = s := by
  unfold updateProgressForEpisode
  rw [h]

lemma mustGetFeed_of_feed (s : Store) (fid : String) (f : StoredFeed)
    (h : s (feedKey fid) = some (.feed f)) : mustGetFeed s fid = some f := by
  unfold mustGetFeed
  rw [h]

lemma subscribeToFeed_of_feed (t : Int) (s : Store) (fid : String)
    (f : StoredFeed) (h : s (feedKey fid) = some (.feed f)) :
    subscribeToFeed t s fid =
      some (updateFeed s
        { f with meta :=
            { f.meta with subscribed := true, lastSubscribedAt := t } }) := by
  unfold subscribeToFeed
  rw [mustGetFeed_of_feed s fid f h]

lemma unsubscribeFromFeed_of_feed (t : Int) (s : Store) (fid : String)
    (f : StoredFeed) (h : s (feedKey fid) = some (.feed f)) :
    unsubscribeFromFeed t s fid =
      some (updateFeed s
        { f with meta := { f.meta with subscribed := false } }) := by
  unfold unsubscribeFromFeed
  rw [mustGetFeed_of_feed s fid f h]

lemma updateFeed_self (s : Store) (f : StoredFeed) :
    (updateFeed s f) (feedKey f.id) = some (.feed f) := by
  simp [updateFeed, storeSet]

lemma feedSubscribed_updateFeed (s : Store) (f : StoredFeed) :
    feedSubscribed (updateFeed s f) f.id = some f.meta.subscribed := by
  unfold feedSubscribed
  rw [mustGetFeed_of_feed (updateFeed s f) f.id f (updateFeed_self s f)]
  rfl

/-! ### Claim theorems -/

/-- C1: for every store holding an episode record at `episode/<feedId>/<id>`,
`updateProgressForEpisode {id, feedId, progress}` stores that record with its
`progress` field set to the given value — every other field spread through
unchanged — and leaves every other key of the store unchanged. -/
theorem updateProgressForEpisode_sets_progress_only (now : Int) (s : Store)
    (fid i : String) (e : StoredEpisode) (p : ℚ)
    (h : s (episodeKey fid i) = some (.ep e)) :
    (updateProgressForEpisode now s
        { id := i, feedId := some fid, progress := p }) (episodeKey fid i) =
      some (.ep { e with progress := p }) ∧
    ∀ k, k ≠ episodeKey fid i →
      (updateProgressForEpisode now s
          { id := i, feedId := some fid, progress := p }) k = s k := by
  have hu := updateProgressForEpisode_of_ep now s
    { id := i, feedId := some fid, progress := p } e (by simpa [interpOpt])
  rw [hu]
  exact ⟨by simpa [interpOpt] using
      storeSet_self s (episodeKey fid i) (.ep { e with progress := p }),
    fun k hk => by
      simpa [interpOpt] using
        storeSet_other s (episodeKey fid i)
          (.ep { e with progress := p }) k hk⟩

theorem updateProgressForEpisode_sets_progress_only_witness :
    sampleStore (episodeKey "f1" "e1") = some (.ep sampleEpisode) ∧
    ((updateProgressForEpisode 0 sampleStore
        { id := "e1", feedId := some "f1", progress := 42 })
        (episodeKey "f1" "e1") =
      some (.ep { sampleEpisode with progress := 42 }) ∧
    ∀ k, k ≠ episodeKey "f1" "e1" →
      (updateProgressForEpisode 0 sampleStore
          { id := "e1", feedId := some "f1", progress := 42 }) k =
        sampleStore k) :=
  ⟨by decide,
   updateProgressForEpisode_sets_progress_only 0 sampleStore "f1" "e1"
     sampleEpisode 42 (by decide)⟩

/-- C8: when no record exists at `episode/<feedId>/<id>`,
`updateProgressForEpisode {id, feedId, progress}` completes without error and
leaves the store entirely unchanged. -/
theorem updateProgressForEpisode_missing_is_noop (now : Int) (s : Store)
    (fid i : String) (p : ℚ) (h : s (episodeKey fid i) = none) :
    updateProgressForEpisode now s
      { id := i, feedId := some fid, progress := p } = s :=
  updateProgressForEpisode_of_none now s
    { id := i, feedId := some fid, progress := p } (by simpa [interpOpt])

theorem updateProgressForEpisode_missing_is_noop_witness :
    sampleStore (episodeKey "f1" "missing") = none ∧
    updateProgressForEpisode 0 sampleStore
      { id := "missing", feedId := some "f1", progress := 9 } = sampleStore :=
  ⟨by decide,
   updateProgressForEpisode_missing_is_noop 0 sampleStore "f1" "missing" 9
     (by decide)⟩

/-- C9: `addFeed` stores, at `feed/<id>`, a record built wholesale from the
raw feed with a fresh `_meta` block whose `subscribed` is `false` and whose
`fromSearch` is the argument (default `false`), regardless of whatever record
the store previously held for that feed id; other keys are untouched. -/
theorem addFeed_overwrites_and_resets_subscribed (now : Int) (s : Store)
    (rawFeed : Feed) (fromSearch : Bool) :
    (addFeed now s rawFeed fromSearch) (feedKey rawFeed.id) =
      some (.feed
        { id := rawFeed.id, title := rawFeed.title, author := rawFeed.author
          image := rawFeed.image, description := rawFeed.description
          url := rawFeed.url
          meta :=
            { lastUpdatedAt := now, fromSearch := fromSearch
              lastSubscribedAt := now, subscribed := false } }) ∧
    (∀ k, k ≠ feedKey rawFeed.id →
      (addFeed now s rawFeed fromSearch) k = s k) ∧
    addFeed now s rawFeed = addFeed now s rawFeed false := by
  refine ⟨storeSet_self _ _ _, fun k hk => storeSet_other _ _ _ k hk, rfl⟩

theorem addFeed_overwrites_and_resets_subscribed_witness :
    (addFeed 3 sampleStore sampleFeed true) (feedKey sampleFeed.id) =
      some (.feed
        { id := sampleFeed.id, title := sampleFeed.title
          author := sampleFeed.author, image := sampleFeed.image
          description := sampleFeed.description, url := sampleFeed.url
          meta :=
            { lastUpdatedAt := 3, fromSearch := true
              lastSubscribedAt := 3, subscribed := false } }) ∧
    "episode/f1/e1" ≠ feedKey sampleFeed.id ∧
    (addFeed 3 sampleStore sampleFeed true) "episode/f1/e1" =
      sampleStore "episode/f1/e1" := by
  have h := addFeed_overwrites_and_resets_subscribed 3 sampleStore
    sampleFeed true
  exact ⟨h.1, by decide, h.2.1 "episode/f1/e1" (by decide)⟩

/-- C3 counterexample: two runs of the registered mutator `addFeed` with the
same arguments against the same starting store, performed at different
`Date.now()` readings, produce different resulting stores (the stored
`_meta.lastUpdatedAt` differs), so the mutators are not deterministic in the
claimed sense. -/
theorem addFeed_result_depends_on_clock :
    addFeed 0 emptyStore sampleFeed false ≠
      addFeed 1 emptyStore sampleFeed false := by
  intro h
  have h2 := congrFun h (feedKey sampleFeed.id)
  simp [addFeed, setFeed, storeSet] at h2

/-- C3 amended: each mutator is a deterministic function of the starting
store, its arguments, and the `Date.now()` reading; the mutators that never
read the clock — `updateProgressForEpisode`, `addEpisodesForFeed`, and
`unsubscribeFromFeed` — give equal stores on any two runs from the same store
with the same arguments, whatever the two clock readings are. -/
theorem clock_free_mutators_deterministic :
    (∀ (t1 t2 : Int) (s : Store) (a : UpdateProgressArgs),
      updateProgressForEpisode t1 s a = updateProgressForEpisode t2 s a) ∧
    (∀ (toISO : Int → String) (t1 t2 : Int) (s : Store)
        (es : List ApiEpisode),
      addEpisodesForFeed toISO t1 s es = addEpisodesForFeed toISO t2 s es) ∧
    (∀ (t1 t2 : Int) (s : Store) (fid : String),
      unsubscribeFromFeed t1 s fid = unsubscribeFromFeed t2 s fid) :=
  ⟨fun _ _ _ _ => rfl, fun _ _ _ _ _ => rfl, fun _ _ _ _ => rfl⟩

/-- C4: the mutation names mounted on the route and player call sites
against the keys of the registered `mutators` record: the five mutator names
the podcast route and the player's progress calls use are registered, but
`setAudioVolume` (Player.tsx) and `updateFeed` (routes/Podcast.tsx) are
invoked by the UI without being keys of the record. -/
theorem ui_mutation_names_vs_registered :
    ("updateProgressForEpisode" ∈ mutatorNames ∧
     "addFeed" ∈ mutatorNames ∧
     "addEpisodesForFeed" ∈ mutatorNames ∧
     "subscribeToFeed" ∈ mutatorNames ∧
     "unsubscribeFromFeed" ∈ mutatorNames) ∧
    ("setAudioVolume" ∈ uiInvokedMutationNames ∧
     "setAudioVolume" ∉ mutatorNames) ∧
    ("updateFeed" ∈ uiInvokedMutationNames ∧
     "updateFeed" ∉ mutatorNames) := by
  decide

/-- C2: the player's progress-persisting invocation omits `feedId`, so the
mutator looks up `episode/undefined/<id>`: with the current episode stored at
`episode/f1/e1` with progress `0`, the player's near-end call
`updateProgressForEpisode({id, progress: 100})` leaves the whole store — in
particular the episode's record — unchanged, and its progress is not `100`. -/
theorem player_progress_call_writes_nothing :
    playerUpdateProgress 0 sampleStore "e1" 100 = sampleStore ∧
    sampleStore (episodeKey "f1" "e1") = some (.ep sampleEpisode) ∧
    (playerUpdateProgress 0 sampleStore "e1" 100) (episodeKey "f1" "e1") ≠
      some (.ep { sampleEpisode with progress := 100 }) := by
  have hnone : sampleStore (episodeKey (interpOpt none) "e1") = none := by
    decide
  have hskip := updateProgressForEpisode_of_none 0 sampleStore
    { id := "e1", feedId := none, progress := 100 } hnone
  refine ⟨hskip, by decide, ?_⟩
  rw [show playerUpdateProgress 0 sampleStore "e1" 100 =
        updateProgressForEpisode 0 sampleStore
          { id := "e1", feedId := none, progress := 100 } from rfl, hskip]
  decide

/-- C7: for a feed stored in the store, `subscribeToFeed` stores it with
`_meta.subscribed := true` and `_meta.lastSubscribedAt` set to the current
time, `unsubscribeFromFeed` stores it with only `_meta.subscribed` flipped to
`false` (keeping `_meta.lastSubscribedAt` and every non-meta field), both
leave every other key unchanged, subscribe-then-unsubscribe leaves the feed
unsubscribed, and each operation is idempotent on the `subscribed` flag. -/
theorem subscribe_unsubscribe_feed_spec (t1 t2 : Int) (s : Store)
    (f : StoredFeed) (h : s (feedKey f.id) = some (.feed f)) :
    ∃ s1 s2,
      subscribeToFeed t1 s f.id = some s1 ∧
      unsubscribeFromFeed t2 s f.id = some s2 ∧
      s1 (feedKey f.id) =
        some (.feed { f with meta :=
          { f.meta with subscribed := true, lastSubscribedAt := t1 } }) ∧
      s2 (feedKey f.id) =
        some (.feed { f with meta := { f.meta with subscribed := false } }) ∧
      (∀ k, k ≠ feedKey f.id → s1 k = s k ∧ s2 k = s k) ∧
      (∃ s12, unsubscribeFromFeed t2 s1 f.id = some s12 ∧
        feedSubscribed s12 f.id = some false) ∧
      (∃ s11, subscribeToFeed t2 s1 f.id = some s11 ∧
        feedSubscribed s11 f.id = some true) ∧
      (∃ s22, unsubscribeFromFeed t2 s2 f.id = some s22 ∧
        feedSubscribed s22 f.id = some false) := by
  refine
    ⟨updateFeed s { f with meta :=
        { f.meta with subscribed := true, lastSubscribedAt := t1 } },
     updateFeed s { f with meta := { f.meta with subscribed := false } },
     subscribeToFeed_of_feed t1 s f.id f h,
     unsubscribeFromFeed_of_feed t2 s f.id f h,
     storeSet_self _ _ _, storeSet_self _ _ _,
     fun k hk => ⟨storeSet_other _ _ _ k hk, storeSet_other _ _ _ k hk⟩,
     ?_, ?_, ?_⟩
  · have h1 : (updateFeed s { f with meta :=
        { f.meta with subscribed := true, lastSubscribedAt := t1 } })
          (feedKey f.id) =
        some (.feed { f with meta :=
          { f.meta with subscribed := true, lastSubscribedAt := t1 } }) :=
      storeSet_self _ _ _
    exact ⟨_, unsubscribeFromFeed_of_feed t2 _ f.id _ h1,
      feedSubscribed_updateFeed _ _⟩
  · have h1 : (updateFeed s { f with meta :=
        { f.meta with subscribed := true, lastSubscribedAt := t1 } })
          (feedKey f.id) =
        some (.feed { f with meta :=
          { f.meta with subscribed := true, lastSubscribedAt := t1 } }) :=
      storeSet_self _ _ _
    exact ⟨_, subscribeToFeed_of_feed t2 _ f.id _ h1,
      feedSubscribed_updateFeed _ _⟩
  · have h2 : (updateFeed s
        { f with meta := { f.meta with subscribed := false } })
          (feedKey f.id) =
        some (.feed { f with meta := { f.meta with subscribed := false } }) :=
      storeSet_self _ _ _
    exact ⟨_, unsubscribeFromFeed_of_feed t2 _ f.id _ h2,
      feedSubscribed_updateFeed _ _⟩

theorem subscribe_unsubscribe_feed_spec_witness :
    sampleStore (feedKey sampleStoredFeed.id) =
      some (.feed sampleStoredFeed) ∧
    ∃ s1, subscribeToFeed 10 sampleStore sampleStoredFeed.id = some s1 ∧
      ∃ s12, unsubscribeFromFeed 20 s1 sampleStoredFeed.id = some s12 ∧
        feedSubscribed s12 sampleStoredFeed.id = some false := by
  have hstore : sampleStore (feedKey sampleStoredFeed.id) =
      some (.feed sampleStoredFeed) := by decide
  obtain ⟨s1, s2, hs1, hs2, hrec1, hrec2, hframe, hsu, hss, huu⟩ :=
    subscribe_unsubscribe_feed_spec 10 20 sampleStore sampleStoredFeed hstore
  exact ⟨hstore, s1, hs1, hsu⟩

/-- C6: the player's audio-source selection uses the cached copy when one
exists and the network URL otherwise: when the episode cache holds a response
for `/episode/<id>`, the chosen audio source is an object URL of that cached
response's blob; when it holds none, it is the episode's `enclosureUrl`. -/
theorem setupAudioSource_cache_or_network (createObjectURL : Blob → String)
    (cacheMatch : String → Option CachedResponse) (ep : StoredEpisode) :
    (∀ response, cacheMatch ("/episode/" ++ ep.id) = some response →
      setupAudioSource createObjectURL cacheMatch (some ep) =
        some (createObjectURL response.blob)) ∧
    (cacheMatch ("/episode/" ++ ep.id) = none →
      setupAudioSource createObjectURL cacheMatch (some ep) =
        some ep.enclosureUrl) := by
  constructor
  · intro response hmatch
    show (match cacheMatch ("/episode/" ++ ep.id) with
          | some r => some (createObjectURL r.blob)
          | none => some ep.enclosureUrl) =
        some (createObjectURL response.blob)
    rw [hmatch]
  · intro hmiss
    show (match cacheMatch ("/episode/" ++ ep.id) with
          | some r => some (createObjectURL r.blob)
          | none => some ep.enclosureUrl) =
        some ep.enclosureUrl
    rw [hmiss]

theorem setupAudioSource_cache_or_network_witness :
    sampleCacheMatch ("/episode/" ++ sampleEpisode.id) =
      some sampleCachedResponse ∧
    setupAudioSource sampleObjectURL sampleCacheMatch (some sampleEpisode) =
      some (sampleObjectURL sampleCachedResponse.blob) ∧
    (fun _ => none : String → Option CachedResponse)
      ("/episode/" ++ sampleEpisode.id) = none ∧
    setupAudioSource sampleObjectURL (fun _ => none) (some sampleEpisode) =
      some sampleEpisode.enclosureUrl := by
  have hhit : sampleCacheMatch ("/episode/" ++ sampleEpisode.id) =
      some sampleCachedResponse := by decide
  refine ⟨hhit, ?_, rfl, ?_⟩
  · exact (setupAudioSource_cache_or_network sampleObjectURL sampleCacheMatch
      sampleEpisode).1 sampleCachedResponse hhit
  · exact (setupAudioSource_cache_or_network sampleObjectURL
      (fun _ => none) sampleEpisode).2 rfl

lemma retryable_ok0 (rs : Nat → ApiResponse) (h0 : (rs 0).status = "true") :
    retryable rs = .ok (rs 0).feeds := by
  simp [retryable, pRetryGo, attemptOnce, h0]

lemma retryable_ok1 (rs : Nat → ApiResponse) (h0 : (rs 0).status ≠ "true")
    (h1 : (rs 1).status = "true") : retryable rs = .ok (rs 1).feeds := by
  simp [retryable, pRetryGo, attemptOnce, h0, h1]

lemma retryable_ok2 (rs : Nat → ApiResponse) (h0 : (rs 0).status ≠ "true")
    (h1 : (rs 1).status ≠ "true") (h2 : (rs 2).status = "true") :
    retryable rs = .ok (rs 2).feeds := by
  simp [retryable, pRetryGo, attemptOnce, h0, h1, h2]

lemma retryable_ok3 (rs : Nat → ApiResponse) (h0 : (rs 0).status ≠ "true")
    (h1 : (rs 1).status ≠ "true") (h2 : (rs 2).status ≠ "true")
    (h3 : (rs 3).status = "true") : retryable rs = .ok (rs 3).feeds := by
  simp [retryable, pRetryGo, attemptOnce, h0, h1, h2, h3]

lemma retryable_err (rs : Nat → ApiResponse) (h0 : (rs 0).status ≠ "true")
    (h1 : (rs 1).status ≠ "true") (h2 : (rs 2).status ≠ "true")
    (h3 : (rs 3).status ≠ "true") :
    retryable rs = .error (rs 3).description := by
  simp [retryable, pRetryGo, attemptOnce, h0, h1, h2, h3]

lemma pRetryGo_congr (rs rs2 : Nat → ApiResponse) :
    ∀ (r i : Nat), (∀ j, i ≤ j → j ≤ i + r → rs j = rs2 j) →
      pRetryGo rs r i = pRetryGo rs2 r i := by
  intro r
  induction r with
  | zero =>
      intro i h
      simp [pRetryGo, h i le_rfl (by omega)]
  | succ r ih =>
      intro i h
      have hi : rs i = rs2 i := h i le_rfl (by omega)
      simp only [pRetryGo, hi]
      cases hc : attemptOnce (rs2 i) with
      | ok v => rfl
      | error e => exact ih (i + 1) fun j hj1 hj2 => h j (by omega) (by omega)

/-- C5: each podcast API wrapper retries at most 3 times (the result is
fixed by the first 4 attempt responses); it returns the `feeds` array of the
first attempt whose response `status` is the string `"true"`; and it throws
an error carrying the (last) response's `description` exactly when every one
of the 4 attempts fails.  `searchByTerm` and `trending` share the retry
behavior. -/
theorem api_wrapper_retry_spec (q : String) (responses : Nat → ApiResponse) :
    searchByTerm q responses = trending responses ∧
    (∀ rs2 : Nat → ApiResponse, (∀ i, i < 4 → responses i = rs2 i) →
      searchByTerm q responses = searchByTerm q rs2) ∧
    (∀ i, i ≤ 3 → (∀ j, j < i → (responses j).status ≠ "true") →
      (responses i).status = "true" →
      searchByTerm q responses = .ok (responses i).feeds) ∧
    ((∀ i, i ≤ 3 → (responses i).status ≠ "true") →
      searchByTerm q responses = .error (responses 3).description) ∧
    (∀ d, searchByTerm q responses = .error d →
      (∀ i, i ≤ 3 → (responses i).status ≠ "true") ∧
      d = (responses 3).description) := by
  refine ⟨rfl, ?_, ?_, ?_, ?_⟩
  · intro rs2 hag
    exact pRetryGo_congr responses rs2 3 0 fun j hj1 hj2 => hag j (by omega)
  · intro i hi hprev hok
    interval_cases i
    · exact retryable_ok0 responses hok
    · exact retryable_ok1 responses (hprev 0 (by omega)) hok
    · exact retryable_ok2 responses (hprev 0 (by omega))
        (hprev 1 (by omega)) hok
    · exact retryable_ok3 responses (hprev 0 (by omega))
        (hprev 1 (by omega)) (hprev 2 (by omega)) hok
  · intro hall
    exact retryable_err responses (hall 0 (by omega)) (hall 1 (by omega))
      (hall 2 (by omega)) (hall 3 (by omega))
  · intro d hd
    by_cases h0 : (responses 0).status = "true"
    · rw [show searchByTerm q responses = _ from retryable_ok0 responses h0]
        at hd
      exact absurd hd (by simp)
    by_cases h1 : (responses 1).status = "true"
    · rw [show searchByTerm q responses = _ from
          retryable_ok1 responses h0 h1] at hd
      exact absurd hd (by simp)
    by_cases h2 : (responses 2).status = "true"
    · rw [show searchByTerm q responses = _ from
          retryable_ok2 responses h0 h1 h2] at hd
      exact absurd hd (by simp)
    by_cases h3 : (responses 3).status = "true"
    · rw [show searchByTerm q responses = _ from
          retryable_ok3 responses h0 h1 h2 h3] at hd
      exact absurd hd (by simp)
    rw [show searchByTerm q responses = _ from
        retryable_err responses h0 h1 h2 h3] at hd
    refine ⟨fun i hi => ?_, by simpa using hd.symm⟩
    interval_cases i <;> assumption

theorem api_wrapper_retry_spec_witness :
    searchByTerm "lex" failingResponses = .error "search failed" ∧
    trending failingResponses = .error "search failed" := by
  have h := api_wrapper_retry_spec "lex" failingResponses
  have herr := h.2.2.2.1 fun i _ => by simp [failingResponses]
  exact ⟨herr, h.1 ▸ herr⟩

lemma addEpisodesForFeed_apply (toISO : Int → String) (now : Int) :
    ∀ (es : List ApiEpisode) (s : Store) (k : String),
      (addEpisodesForFeed toISO now s es) k = s k ∨
      ∃ e ∈ es, k = episodeKey e.feedId e.id ∧
        (addEpisodesForFeed toISO now s es) k =
          some (.ep (mkStoredEpisode toISO e)) := by
  intro es
  induction es with
  | nil => intro s k; exact Or.inl rfl
  | cons e tl ih =>
      intro s k
      have hstep : addEpisodesForFeed toISO now s (e :: tl) =
          addEpisodesForFeed toISO now
            (storeSet s (episodeKey e.feedId e.id)
              (.ep (mkStoredEpisode toISO e))) tl := rfl
      rcases ih (storeSet s (episodeKey e.feedId e.id)
          (.ep (mkStoredEpisode toISO e))) k with h2 | ⟨e2, he2, hk, hv⟩
      · by_cases hke : k = episodeKey e.feedId e.id
        · refine Or.inr ⟨e, List.mem_cons_self e tl, hke, ?_⟩
          rw [hstep, h2, hke]
          exact storeSet_self _ _ _
        · refine Or.inl ?_
          rw [hstep, h2]
          exact storeSet_other _ _ _ k hke
      · exact Or.inr ⟨e2, List.mem_cons_of_mem e he2, hk, by
          rw [hstep]; exact hv⟩

lemma addEpisodesForFeed_mem (toISO : Int → String) (now : Int) :
    ∀ (es : List ApiEpisode) (s : Store) (e : ApiEpisode), e ∈ es →
      ∃ e2 ∈ es, episodeKey e2.feedId e2.id = episodeKey e.feedId e.id ∧
        (addEpisodesForFeed toISO now s es) (episodeKey e.feedId e.id) =
          some (.ep (mkStoredEpisode toISO e2)) := by
  intro es
  induction es with
  | nil => intro s e he; exact absurd he (List.not_mem_nil e)
  | cons e0 tl ih =>
      intro s e he
      rcases List.mem_cons.mp he with heq | htl
      · subst heq
        rcases addEpisodesForFeed_apply toISO now tl
            (storeSet s (episodeKey e.feedId e.id)
              (.ep (mkStoredEpisode toISO e)))
            (episodeKey e.feedId e.id) with h2 | ⟨e3, he3, hk3, hv3⟩
        · refine ⟨e, List.mem_cons_self e tl, rfl, ?_⟩
          rw [show addEpisodesForFeed toISO now s (e :: tl) =
              addEpisodesForFeed toISO now
                (storeSet s (episodeKey e.feedId e.id)
                  (.ep (mkStoredEpisode toISO e))) tl from rfl, h2]
          exact storeSet_self _ _ _
        · exact ⟨e3, List.mem_cons_of_mem _ he3, hk3.symm, hv3⟩
      · obtain ⟨e2, he2, hk, hv⟩ := ih
          (storeSet s (episodeKey e0.feedId e0.id)
            (.ep (mkStoredEpisode toISO e0))) e htl
        exact ⟨e2, List.mem_cons_of_mem _ he2, hk, hv⟩

/-- C10: every episode record `addEpisodesForFeed` stores at an
`episode/<feedId>/<id>` key is the conversion of a listed API episode:
`progress` is `0`, `explicit` holds exactly when the API `explicit` value is
`1`, `datePublished` is the ISO-8601 rendering of the API `datePublished`
value, and every other API field is carried through unchanged; moreover each
listed episode's key does receive such a converted record, and keys the call
changes are exactly of this shape. -/
theorem addEpisodesForFeed_stores_converted (toISO : Int → String)
    (now : Int) (s : Store) (es : List ApiEpisode) :
    (∀ k, (addEpisodesForFeed toISO now s es) k ≠ s k →
      ∃ e ∈ es, k = episodeKey e.feedId e.id ∧
        (addEpisodesForFeed toISO now s es) k =
          some (.ep (mkStoredEpisode toISO e))) ∧
    (∀ e ∈ es, ∃ e2 ∈ es,
      episodeKey e2.feedId e2.id = episodeKey e.feedId e.id ∧
        (addEpisodesForFeed toISO now s es) (episodeKey e.feedId e.id) =
          some (.ep (mkStoredEpisode toISO e2))) ∧
    (∀ e : ApiEpisode,
      (mkStoredEpisode toISO e).progress = 0 ∧
      ((mkStoredEpisode toISO e).explicit ↔ e.explicit = 1) ∧
      (mkStoredEpisode toISO e).datePublished = toISO e.datePublished ∧
      (mkStoredEpisode toISO e).id = e.id ∧
      (mkStoredEpisode toISO e).feedId = e.feedId ∧
      (mkStoredEpisode toISO e).title = e.title ∧
      (mkStoredEpisode toISO e).enclosureUrl = e.enclosureUrl ∧
      (mkStoredEpisode toISO e).duration = e.duration) := by
  refine ⟨fun k hk => ?_,
    fun e he => addEpisodesForFeed_mem toISO now es s e he,
    fun e => ⟨rfl, ?_, rfl, rfl, rfl, rfl, rfl, rfl⟩⟩
  · rcases addEpisodesForFeed_apply toISO now es s k with h | h
    · exact absurd h hk
    · exact h
  · simp [mkStoredEpisode]

theorem addEpisodesForFeed_stores_converted_witness :
    (addEpisodesForFeed sampleISO 0 emptyStore [sampleApiEpisode])
        (episodeKey "f1" "e2") =
      some (.ep (mkStoredEpisode sampleISO sampleApiEpisode)) ∧
    (mkStoredEpisode sampleISO sampleApiEpisode).progress = 0 := by
  obtain ⟨e2, he2, hk, hv⟩ :=
    (addEpisodesForFeed_stores_converted sampleISO 0 emptyStore
      [sampleApiEpisode]).2.1 sampleApiEpisode (List.mem_cons_self _ _)
  have he2eq : e2 = sampleApiEpisode := by simpa using he2
  subst he2eq
  exact ⟨hv, rfl⟩

end Podcasts
